import Mathlib

/-!
DIGIPIN browser controller (`public/app.js`).

A shallow embedding of the controller script and the properties of its
input formatter, geocode client, generate / decode flows, map visualizer
and auxiliary actions.

Script strings are modelled by `String`; the string operations the script
uses (`toUpperCase`, `replace`, `slice`, `trim`, `+`) are defined on the
underlying character lists. Script numbers are IEEE-754 doubles, which the
script only stores, tests and formats, never computes with.

Every handler is a function from the world before it to the world after
it, given what the browser and the remote service answer while it runs; a
handler runs to completion before the next one starts. A handler that can
throw returns the world together with the error thrown, if any.
-/

set_option autoImplicit false

namespace Digipin

/-! ## Script values -/

/-- An IEEE-754 binary64 value, given by its 64-bit pattern. -/
structure Double where
  bits : Nat
  deriving DecidableEq, Repr

/-- The number is `NaN`: exponent all ones and a non-zero mantissa. -/
def Double.isNaN (x : Double) : Bool :=
  (x.bits / 2 ^ 52) % 2 ^ 11 == 2047 && x.bits % 2 ^ 52 != 0

/-- The number is `+0` or `-0`. -/
def Double.isZero (x : Double) : Bool :=
  x.bits % 2 ^ 63 == 0

/-- A parsed JSON document. -/
inductive Json where
  | null : Json
  | bool (b : Bool) : Json
  | num (x : Double) : Json
  | str (s : String) : Json
  | arr (items : List Json) : Json
  | obj (fields : List (String × Json)) : Json

/-- A script value as the controller meets them: `undefined` or a JSON value. -/
inductive JsVal where
  | undefined : JsVal
  | json (j : Json) : JsVal

/-- A thrown error object, by the two properties the script reads. -/
structure JsError where
  name : String
  message : String
  deriving DecidableEq, Repr

/-- Behaviour of the script engine and browser that the repository does not
define: these are parameters of the model. -/
structure Engine where
  /-- Result of `toUpperCase` on a string holding a non-ASCII character. -/
  upperNonAscii : String → String
  /-- Conversion of a number to a string, as in a template literal. -/
  numToString : Double → String
  /-- The method `toFixed(6)` of a number. -/
  toFixed6 : Double → String
  /-- Conversion of an array or object to a string. -/
  compoundToString : Json → String
  /-- The global `parseFloat`. -/
  parseFloat : String → Double
  /-- Message of the `TypeError` raised by reading a property of `null`. -/
  nullPropertyMessage : String
  /-- The page origin `window.location.origin`, the script's `API_BASE`. -/
  origin : String

/-! ## String operations -/

/-- Every character of the string is ASCII. -/
def isAscii (s : String) : Bool :=
  s.data.all (fun c => decide (c.toNat < 128))

/-- The method `toUpperCase`: on ASCII strings it maps `a`-`z` to `A`-`Z`
and leaves every other character alone; elsewhere the engine decides. -/
def toUpperCase (E : Engine) (s : String) : String :=
  if isAscii s then String.mk (s.data.map Char.toUpper) else E.upperNonAscii s

/-- The character class `[A-Z0-9]`. -/
def isUpperAlnum (c : Char) : Bool :=
  (decide (65 ≤ c.toNat) && decide (c.toNat ≤ 90)) ||
    (decide (48 ≤ c.toNat) && decide (c.toNat ≤ 57))

/-- The call `replace(/[^A-Z0-9]/g, '')`. -/
def stripNonAlnum (s : String) : String :=
  String.mk (s.data.filter isUpperAlnum)

/-- The call `s.slice(b, e)` for non-negative `b` and `e`. -/
def slice (s : String) (b e : Nat) : String :=
  String.mk ((s.data.take e).drop b)

/-- The call `s.slice(b)` for non-negative `b`. -/
def sliceFrom (s : String) (b : Nat) : String :=
  String.mk (s.data.drop b)

/-! ## Input formatter -/

/-- The `input` listener of `decodeInput`: from the field's value to the
value written back to the field. -/
def formatDigipinInput (E : Engine) (targetValue : String) : String :=
  let value := stripNonAlnum (toUpperCase E targetValue)
  let value := if value.length > 3 then slice value 0 3 ++ "-" ++ sliceFrom value 3 else value
  let value := if value.length > 7 then slice value 0 7 ++ "-" ++ sliceFrom value 7 else value
  value

/-- The formatter as the specification words it, on the stripped string `t`:
`t` up to three characters, one hyphen after the third up to six, and
hyphens after the third and the sixth beyond. -/
def formatSpec (t : String) : String :=
  if t.length ≤ 3 then t
  else if t.length ≤ 6 then slice t 0 3 ++ "-" ++ sliceFrom t 3
  else slice t 0 3 ++ "-" ++ slice t 3 6 ++ "-" ++ sliceFrom t 6

/-- The string with every hyphen removed. -/
def removeHyphens (s : String) : String :=
  String.mk (s.data.filter (fun c => c != '-'))

/-- The double `28.6139`. -/
def sampleLatitude : Double := ⟨4628747314518229936⟩

/-- The double `77.209`. -/
def sampleLongitude : Double := ⟨4635133517306083148⟩

/-- An engine used to evaluate the model on concrete inputs. It formats and
parses the two sample coordinates as a browser does and is arbitrary
elsewhere. -/
def sampleEngine : Engine where
  upperNonAscii := fun s => s
  numToString := fun x =>
    if x = sampleLatitude then "28.6139" else if x = sampleLongitude then "77.209" else "0"
  toFixed6 := fun x =>
    if x = sampleLatitude then "28.613900" else if x = sampleLongitude then "77.209000"
    else "0.000000"
  compoundToString := fun _ => "[object Object]"
  parseFloat := fun s =>
    if s = "28.6139" then sampleLatitude else if s = "77.209" then sampleLongitude else ⟨0⟩
  nullPropertyMessage := "Cannot read properties of null"
  origin := "https://digipin.example"

/-- The formatter on character lists, by the number of characters available. -/
def hyphenate : List Char → List Char
  | a :: b :: c :: d :: e :: f :: g :: r => a :: b :: c :: '-' :: d :: e :: f :: '-' :: g :: r
  | a :: b :: c :: d :: r => a :: b :: c :: '-' :: d :: r
  | t => t

/-- White space and line terminators, the characters `trim` removes. -/
def isTrimChar (c : Char) : Bool :=
  c.toNat ∈ [0x09, 0x0A, 0x0B, 0x0C, 0x0D, 0x20, 0xA0, 0x1680, 0x2028, 0x2029, 0x202F,
    0x205F, 0x3000, 0xFEFF] || (decide (0x2000 ≤ c.toNat) && decide (c.toNat ≤ 0x200A))

/-- The method `trim`. -/
def trim (s : String) : String :=
  String.mk ((s.data.dropWhile isTrimChar).reverse.dropWhile isTrimChar).reverse

/-! ## Conversions of script values -/

/-- Truthiness of a script value, as tested by `!`, `||` and `if`. -/
def truthy : JsVal → Bool
  | .undefined => false
  | .json .null => false
  | .json (.bool b) => b
  | .json (.num x) => !(x.isZero || x.isNaN)
  | .json (.str s) => s != ""
  | .json (.arr _) => true
  | .json (.obj _) => true

/-- Conversion of a script value to a string. -/
def toStr (E : Engine) : JsVal → String
  | .undefined => "undefined"
  | .json .null => "null"
  | .json (.bool true) => "true"
  | .json (.bool false) => "false"
  | .json (.num x) => E.numToString x
  | .json (.str s) => s
  | .json (.arr items) => E.compoundToString (.arr items)
  | .json (.obj fields) => E.compoundToString (.obj fields)

/-- The string an element shows after `textContent = v`: empty for `null`
and `undefined`, the string conversion otherwise. -/
def textContentOf (E : Engine) : JsVal → String
  | .undefined => ""
  | .json .null => ""
  | v => toStr E v

/-- Reading the property `key` (one of `error`, `digipin`, `latitude`,
`longitude`) of a parsed body: a `TypeError` on `null`, the property of an
object, `undefined` on anything else. The field list of an object is its
property list, one entry per key. -/
def getProp (E : Engine) (body : Json) (key : String) : Except JsError JsVal :=
  match body with
  | .null => .error ⟨"TypeError", E.nullPropertyMessage⟩
  | .obj fields =>
    match fields.lookup key with
    | some v => .ok (.json v)
    | none => .ok .undefined
  | _ => .ok .undefined

/-- The object built by `new Error(message)`. -/
def newError (message : String) : JsError := ⟨"Error", message⟩

/-! ## Session state, page state and the map library -/

/-- A position: the object `getUserLocation` resolves with (three
properties) or the one `showDecodeOnMap` builds (no accuracy). -/
structure Location where
  latitude : Double
  longitude : Double
  accuracy : Option Double
  deriving DecidableEq, Repr

/-- A marker layer: its position, the label shown in its icon and, once a
popup is bound, the label and coordinate text of the popup. -/
structure Marker where
  latitude : Double
  longitude : Double
  iconLabel : String
  popup : Option (String × String)
  popupOpen : Bool
  deriving DecidableEq, Repr

/-- A circle layer. -/
structure Circle where
  latitude : Double
  longitude : Double
  radius : Double
  deriving DecidableEq, Repr

/-- A live map instance of the rendering library with its layers. -/
structure MapInstance where
  id : Nat
  container : String
  center : Double × Double
  zoom : Nat
  tileLayers : List String
  markers : List Marker
  circles : List Circle
  deriving DecidableEq, Repr

/-- Something the script asks of the browser. -/
inductive Effect where
  | getCurrentPosition (enableHighAccuracy : Bool) (timeout maximumAge : Nat)
  | fetch (url : String)
  | clipboardWriteText (text : String)
  | windowOpen (url target : String)
  | share (title text url : String)
  | scrollIntoView
  | hideToastAfter (ms : Nat)
  | invalidateSizeAfter (ms : Nat)
  deriving DecidableEq, Repr

/-- The script's globals, the page elements it touches, the live map
instances of the rendering library and the browser requests made so far. -/
structure World where
  currentLocation : Option Location
  currentDigipin : JsVal
  map : Option Nat
  marker : Option Marker
  generateBtnDisabled : Bool
  loadingMsgDisplay : String
  errorMsgDisplay : String
  errorText : String
  resultSectionDisplay : String
  digipinCodeText : String
  coordsText : String
  decodeInputValue : String
  decodeBtnDisabled : Bool
  decodeBtnText : String
  decodeResultDisplay : String
  decodeLatText : String
  decodeLonText : String
  datasetLat : Option String
  datasetLon : Option String
  datasetDigipin : Option String
  toastText : String
  toastShown : Bool
  tabBtns : List (String × Bool)
  tabContents : List (String × Bool)
  liveMaps : List MapInstance
  nextMapId : Nat
  log : List Effect

/-- The script's state at load: no location, no code, no map. -/
def World.atLoad (w : World) : Prop :=
  w.currentLocation = none ∧ w.currentDigipin = .json .null ∧ w.map = none ∧
    w.marker = none ∧ w.liveMaps = []

/-- A page at load, used to evaluate the model on concrete inputs. -/
def sampleWorld : World where
  currentLocation := none
  currentDigipin := .json .null
  map := none
  marker := none
  generateBtnDisabled := false
  loadingMsgDisplay := "none"
  errorMsgDisplay := "none"
  errorText := ""
  resultSectionDisplay := "none"
  digipinCodeText := ""
  coordsText := ""
  decodeInputValue := ""
  decodeBtnDisabled := false
  decodeBtnText := "Find"
  decodeResultDisplay := "none"
  decodeLatText := ""
  decodeLonText := ""
  datasetLat := none
  datasetLon := none
  datasetDigipin := none
  toastText := ""
  toastShown := false
  tabBtns := [("generate", true), ("decode", false)]
  tabContents := [("generateTab", true), ("decodeTab", false)]
  liveMaps := []
  nextMapId := 0
  log := []

/-! ## Utility functions -/

/-- The function `showToast`. -/
def showToast (message : String) (w : World) : World :=
  { w with toastText := message, toastShown := true, log := w.log ++ [.hideToastAfter 3000] }

/-- The function `showError`. -/
def showError (message : String) (w : World) : World :=
  { w with errorText := message, errorMsgDisplay := "flex", loadingMsgDisplay := "none" }

/-- The function `hideError`. -/
def hideError (w : World) : World :=
  { w with errorMsgDisplay := "none" }

/-- The function `showLoading`. -/
def showLoading (w : World) : World :=
  hideError { w with loadingMsgDisplay := "flex" }

/-- The function `hideLoading`. -/
def hideLoading (w : World) : World :=
  { w with loadingMsgDisplay := "none" }

/-- The first element of the list with the given id gets the class `active`. -/
def activateById (id : String) : List (String × Bool) → List (String × Bool)
  | [] => []
  | c :: rest => if c.1 = id then (c.1, true) :: rest else c :: activateById id rest

/-- The function `switchTab`: every button is active exactly when its
`data-tab` is `tabId`; every content loses `active`, then the element whose
id is `tabId + 'Tab'` gets it. -/
def switchTab (tabId : String) (w : World) : World :=
  { w with
    tabBtns := w.tabBtns.map (fun b => (b.1, b.1 == tabId))
    tabContents := activateById (tabId ++ "Tab") (w.tabContents.map (fun c => (c.1, false))) }

/-! ## Geolocation acquirer -/

/-- What the device answers to `getCurrentPosition`: a position, or an error
with its numeric code (`PERMISSION_DENIED` is 1, `POSITION_UNAVAILABLE` 2,
`TIMEOUT` 3). -/
inductive PositionResult where
  | position (latitude longitude accuracy : Double)
  | error (code : Nat)
  deriving DecidableEq, Repr

/-- The function `getUserLocation`. The argument is `none` when
`navigator.geolocation` is absent, else the device's answer. -/
def getUserLocation (geolocation : Option PositionResult) (w : World) :
    World × Except JsError Location :=
  match geolocation with
  | none => (w, .error (newError "Geolocation is not supported by your browser"))
  | some result =>
    let w := { w with log := w.log ++ [.getCurrentPosition true 10000 0] }
    match result with
    | .position latitude longitude accuracy => (w, .ok ⟨latitude, longitude, some accuracy⟩)
    | .error code =>
      let message :=
        if code = 1 then "Please allow location access."
        else if code = 2 then "Location unavailable. Check GPS."
        else if code = 3 then "Location request timed out."
        else "Unable to get your location"
      (w, .error (newError message))

/-! ## Geocode client -/

/-- A response of the remote service: its `ok` flag and what `json()` gives,
the parsed body or the error of the parser. -/
structure Response where
  ok : Bool
  json : Except JsError Json

/-- How a `fetch` call ends. -/
inductive FetchOutcome where
  | rejected (e : JsError)
  | resolved (response : Response)

/-- The part shared by `encodeDigipin` and `decodeDigipin` after `fetch`:
the check of `ok`, the error normalisation with the given fallback message,
and the parsed body. -/
def readResponse (E : Engine) (fallback : String) (outcome : FetchOutcome) :
    Except JsError Json :=
  match outcome with
  | .rejected e => .error e
  | .resolved response =>
    if !response.ok then
      match response.json with
      | .error e => .error e
      | .ok error =>
        match getProp E error "error" with
        | .error e => .error e
        | .ok field =>
          .error (newError (toStr E (if truthy field then field else .json (.str fallback))))
    else
      response.json

/-- The function `encodeDigipin`. -/
def encodeDigipin (E : Engine) (outcome : FetchOutcome) (latitude longitude : Double)
    (w : World) : World × Except JsError Json :=
  let url := E.origin ++ "/api/digipin/encode?latitude=" ++ E.numToString latitude ++
    "&longitude=" ++ E.numToString longitude
  let w := { w with log := w.log ++ [.fetch url] }
  (w, readResponse E "Failed to generate DIGIPIN" outcome)

/-- The function `decodeDigipin`. -/
def decodeDigipin (E : Engine) (outcome : FetchOutcome) (digipin : String)
    (w : World) : World × Except JsError Json :=
  let url := E.origin ++ "/api/digipin/decode?digipin=" ++ digipin
  let w := { w with log := w.log ++ [.fetch url] }
  (w, readResponse E "Failed to decode DIGIPIN" outcome)

/-! ## Map visualizer -/

/-- The radius of the precision circle, the double `2.83`. -/
def circleRadius : Double := ⟨4613555012272746660⟩

/-- The first step of `initMap`: an existing map is removed from the
library's live instances and the global is cleared. -/
def removeExistingMap (w : World) : World :=
  match w.map with
  | some id => { w with liveMaps := w.liveMaps.filter (fun m => m.id != id), map := none }
  | none => w

/-- A change to the live map instance with the given id. -/
def updateMap (id : Nat) (f : MapInstance → MapInstance) (w : World) : World :=
  { w with liveMaps := w.liveMaps.map (fun m => if m.id = id then f m else m) }

/-- The function `initMap`. With `mapFailure` the construction `L.map('map')`
throws that error; the result is the world and the error thrown, if any. -/
def initMap (E : Engine) (mapFailure : Option JsError) (latitude longitude : Double)
    (digipinLabel : JsVal) (w : World) : World × Option JsError :=
  let w := removeExistingMap w
  match mapFailure with
  | some e => (w, some e)
  | none =>
    let id := w.nextMapId
    let w := { w with
      liveMaps := w.liveMaps ++ [⟨id, "map", (latitude, longitude), 18, [], [], []⟩]
      nextMapId := id + 1
      map := some id }
    let tiles := "https://\x7bs\x7d.tile.openstreetmap.org/\x7bz\x7d/\x7bx\x7d/\x7by\x7d.png"
    let w := updateMap id (fun m => { m with tileLayers := m.tileLayers ++ [tiles] }) w
    let label := toStr E digipinLabel
    let popup := (label, E.toFixed6 latitude ++ ", " ++ E.toFixed6 longitude)
    let placed : Marker := ⟨latitude, longitude, label, some popup, true⟩
    let w := updateMap id (fun m => { m with markers := m.markers ++ [placed] }) w
    let w := { w with marker := some placed }
    let circle : Circle := ⟨latitude, longitude, circleRadius⟩
    let w := updateMap id (fun m => { m with circles := m.circles ++ [circle] }) w
    ({ w with log := w.log ++ [.invalidateSizeAfter 100] }, none)

/-! ## Workflow orchestrator -/

/-- The function `displayResults`; the result is the world and the error
thrown, if any. -/
def displayResults (E : Engine) (mapFailure : Option JsError) (w : World) :
    World × Option JsError :=
  let w := { w with digipinCodeText := textContentOf E w.currentDigipin }
  match w.currentLocation with
  | none => (w, some ⟨"TypeError", E.nullPropertyMessage⟩)
  | some location =>
    let text := "📍 " ++ E.toFixed6 location.latitude ++ ", " ++ E.toFixed6 location.longitude
    let w := { w with coordsText := text }
    let w := { w with resultSectionDisplay := "block" }
    match initMap E mapFailure location.latitude location.longitude w.currentDigipin w with
    | (w, some e) => (w, some e)
    | (w, none) => ({ w with log := w.log ++ [.scrollIntoView] }, none)

/-- What the environment answers during one run of `handleGenerate`. -/
structure GenerateEnv where
  /-- The presence of `navigator.geolocation` and the device's answer. -/
  geolocation : Option PositionResult
  /-- How the encode request ends, if it is made. -/
  encode : FetchOutcome
  /-- The error thrown by the map construction, if it is reached and fails. -/
  mapFailure : Option JsError

/-- The `try` block of `handleGenerate`: the world when the block is left and
the error thrown, if any. -/
def handleGenerateTry (E : Engine) (env : GenerateEnv) (w : World) : World × Option JsError :=
  match getUserLocation env.geolocation w with
  | (w, .error e) => (w, some e)
  | (w, .ok location) =>
    let w := { w with currentLocation := some location }
    match encodeDigipin E env.encode location.latitude location.longitude w with
    | (w, .error e) => (w, some e)
    | (w, .ok data) =>
      match getProp E data "digipin" with
      | .error e => (w, some e)
      | .ok digipin =>
        let w := { w with currentDigipin := digipin }
        let w := hideLoading w
        displayResults E env.mapFailure w

/-- The `catch` block of `handleGenerate`, entered when the `try` block threw. -/
def handleGenerateCatch : World × Option JsError → World
  | (w, none) => w
  | (w, some error) => showError error.message (hideLoading w)

/-- The function `handleGenerate`, run to completion. -/
def handleGenerate (E : Engine) (env : GenerateEnv) (w : World) : World :=
  let w := { w with generateBtnDisabled := true }
  let w := showLoading w
  let w := hideError w
  let w := { w with resultSectionDisplay := "none" }
  let w := handleGenerateCatch (handleGenerateTry E env w)
  { w with generateBtnDisabled := false }

/-- The function `copyToClipboard`; `written` tells whether the clipboard
write succeeds. -/
def copyToClipboard (E : Engine) (written : Bool) (w : World) : World :=
  if !truthy w.currentDigipin then w
  else
    let w := { w with log := w.log ++ [.clipboardWriteText (toStr E w.currentDigipin)] }
    if written then showToast "Copied to clipboard!" w else showToast "Failed to copy" w

/-- The function `openGoogleMaps`. -/
def openGoogleMaps (E : Engine) (w : World) : World :=
  match w.currentLocation with
  | none => w
  | some location =>
    let url := "https://www.google.com/maps?q=" ++ E.numToString location.latitude ++ "," ++
      E.numToString location.longitude
    { w with log := w.log ++ [.windowOpen url "_blank"] }

/-- The function `shareDigipin`. The argument `share` is `none` when
`navigator.share` is absent, else how the share call ends: `none` for
success, the rejection otherwise. -/
def shareDigipin (E : Engine) (share : Option (Option JsError)) (written : Bool)
    (w : World) : World :=
  match w.currentLocation with
  | none => w
  | some location =>
    if !truthy w.currentDigipin then w
    else
      let shareText := "My DIGIPIN: " ++ toStr E w.currentDigipin ++ "\nLocation: " ++
        E.toFixed6 location.latitude ++ ", " ++ E.toFixed6 location.longitude
      let url := "https://www.google.com/maps?q=" ++ E.numToString location.latitude ++ "," ++
        E.numToString location.longitude
      match share with
      | some outcome =>
        let w := { w with log := w.log ++ [.share "My DIGIPIN" shareText url] }
        match outcome with
        | none => showToast "Shared successfully!" w
        | some error => if error.name != "AbortError" then copyToClipboard E written w else w
      | none => copyToClipboard E written w

/-- The `try` block of `handleDecode`: the world when the block is left and
the error thrown, if any. -/
def handleDecodeTry (E : Engine) (decode : FetchOutcome) (inputDigipin : String) (w : World) :
    World × Option JsError :=
  match decodeDigipin E decode inputDigipin w with
  | (w, .error e) => (w, some e)
  | (w, .ok data) =>
    match getProp E data "latitude", getProp E data "longitude" with
    | .error e, _ => (w, some e)
    | .ok _, .error e => (w, some e)
    | .ok latitude, .ok longitude =>
      ({ w with
          decodeLatText := textContentOf E latitude
          decodeLonText := textContentOf E longitude
          decodeResultDisplay := "block"
          datasetLat := some (toStr E latitude)
          datasetLon := some (toStr E longitude)
          datasetDigipin := some inputDigipin }, none)

/-- The `catch` block of `handleDecode`, entered when the `try` block threw. -/
def handleDecodeCatch : World × Option JsError → World
  | (w, none) => w
  | (w, some error) => showToast error.message w

/-- The function `handleDecode`, run to completion. -/
def handleDecode (E : Engine) (decode : FetchOutcome) (w : World) : World :=
  let inputDigipin := toUpperCase E (trim w.decodeInputValue)
  if inputDigipin = "" then showToast "Please enter a DIGIPIN" w
  else
    let w := { w with decodeBtnDisabled := true }
    let w := { w with decodeBtnText := "..." }
    let w := { w with decodeResultDisplay := "none" }
    let w := handleDecodeCatch (handleDecodeTry E decode inputDigipin w)
    let w := { w with decodeBtnDisabled := false }
    { w with decodeBtnText := "Find" }

/-- A `data-*` attribute read back as a script value: its string, or
`undefined` when it was never set. -/
def datasetValue : Option String → JsVal
  | some s => .json (.str s)
  | none => .undefined

/-- The function `showDecodeOnMap`; the result is the world and the error
thrown, if any. -/
def showDecodeOnMap (E : Engine) (mapFailure : Option JsError) (w : World) :
    World × Option JsError :=
  let lat := E.parseFloat (toStr E (datasetValue w.datasetLat))
  let lon := E.parseFloat (toStr E (datasetValue w.datasetLon))
  let digipin := datasetValue w.datasetDigipin
  let w := switchTab "generate" w
  let w := { w with currentLocation := some ⟨lat, lon, none⟩ }
  let w := { w with currentDigipin := digipin }
  let w := { w with digipinCodeText := textContentOf E digipin }
  let w := { w with coordsText := "📍 " ++ E.toFixed6 lat ++ ", " ++ E.toFixed6 lon }
  let w := { w with resultSectionDisplay := "block" }
  initMap E mapFailure lat lon digipin w

/-! ## User actions -/

/-- One user action together with what the environment answers during it.
Each action runs to completion before the next starts. -/
inductive Action where
  | generate (env : GenerateEnv)
  | decode (outcome : FetchOutcome)
  | showOnMap (mapFailure : Option JsError)
  | input (typed : String)
  | copy (written : Bool)
  | openMaps
  | share (share : Option (Option JsError)) (written : Bool)
  | tab (tabId : String)

/-- The world after one action. -/
def step (E : Engine) (w : World) : Action → World
  | .generate env => handleGenerate E env w
  | .decode outcome => handleDecode E outcome w
  | .showOnMap mapFailure => (showDecodeOnMap E mapFailure w).1
  | .input typed => { w with decodeInputValue := formatDigipinInput E typed }
  | .copy written => copyToClipboard E written w
  | .openMaps => openGoogleMaps E w
  | .share share written => shareDigipin E share written w
  | .tab tabId => switchTab tabId w

/-- The world after a sequence of actions. -/
def run (E : Engine) (w : World) (actions : List Action) : World :=
  actions.foldl (step E) w

/-- One display request: the coordinates and the label. -/
structure DisplayCall where
  latitude : Double
  longitude : Double
  label : JsVal

/-- The world after a sequence of `initMap` calls none of which throws. -/
def displayAll (E : Engine) (w : World) (calls : List DisplayCall) : World :=
  calls.foldl (fun w c => (initMap E none c.latitude c.longitude c.label w).1) w

/-- The code is set only where a location is set. -/
def codeHasLocation (w : World) : Prop :=
  w.currentDigipin ≠ .json .null → w.currentLocation ≠ none

/-- The live map instances are exactly the one the global `map` refers to,
if any. -/
def mapTracked (w : World) : Prop :=
  w.liveMaps.map (fun m => m.id) = w.map.toList

/-! # Theorems -/

/-! ## Input formatter -/

theorem string_ext_data {s t : String} (h : s.data = t.data) : s = t := by
  cases s; cases t; simp_all

theorem formatDigipinInput_data (E : Engine) (s : String) :
    (formatDigipinInput E s).data = hyphenate (stripNonAlnum (toUpperCase E s)).data := by
  unfold formatDigipinInput
  generalize stripNonAlnum (toUpperCase E s) = v
  obtain ⟨t⟩ := v
  rcases t with _ | ⟨a, _ | ⟨b, _ | ⟨c, _ | ⟨d, _ | ⟨e, _ | ⟨f, _ | ⟨g, r⟩⟩⟩⟩⟩⟩⟩ <;>
    simp [hyphenate, slice, sliceFrom, String.length, String.data_append]

theorem formatSpec_data (v : String) :
    (formatSpec v).data = hyphenate v.data := by
  unfold formatSpec
  obtain ⟨t⟩ := v
  rcases t with _ | ⟨a, _ | ⟨b, _ | ⟨c, _ | ⟨d, _ | ⟨e, _ | ⟨f, _ | ⟨g, r⟩⟩⟩⟩⟩⟩⟩ <;>
    simp [hyphenate, slice, sliceFrom, String.length, String.data_append]


theorem hyphen_not_alnum {c : Char} (h : isUpperAlnum c = true) : c ≠ '-' := by
  rintro rfl
  revert h
  decide

theorem stripNonAlnum_alnum (s : String) :
    ∀ c ∈ (stripNonAlnum s).data, isUpperAlnum c = true := by
  intro c hc
  simp only [stripNonAlnum, List.mem_filter] at hc
  exact hc.2

theorem hyphenate_mem (t : List Char) (ht : ∀ c ∈ t, isUpperAlnum c = true) :
    ∀ c ∈ hyphenate t, isUpperAlnum c = true ∨ c = '-' := by
  rcases t with _ | ⟨a, _ | ⟨b, _ | ⟨c, _ | ⟨d, _ | ⟨e, _ | ⟨f, _ | ⟨g, r⟩⟩⟩⟩⟩⟩⟩ <;>
    simp only [hyphenate, List.mem_cons, List.forall_mem_cons] at ht ⊢ <;>
    intro x hx <;> aesop

theorem hyphenate_index (t : List Char) (ht : ∀ c ∈ t, isUpperAlnum c = true)
    (i : Nat) (x : Char) (hx : (hyphenate t)[i]? = some x) :
    (x = '-' ↔ (i = 3 ∨ i = 7)) ∧ (i ≠ 3 → i ≠ 7 → isUpperAlnum x = true) := by
  have key : ∀ (r : List Char) (j : Nat), (∀ c ∈ r, isUpperAlnum c = true) →
      r[j]? = some x → isUpperAlnum x = true := by
    intro r j hr hj
    exact hr x (List.getElem?_mem hj)
  rcases t with _ | ⟨a, _ | ⟨b, _ | ⟨c, _ | ⟨d, _ | ⟨e, _ | ⟨f, _ | ⟨g, r⟩⟩⟩⟩⟩⟩⟩ <;>
    simp only [hyphenate, List.forall_mem_cons] at ht hx
  · simp at hx
  all_goals
    rcases i with _ | _ | _ | _ | _ | _ | _ | _ | _ | i <;>
      simp only [List.getElem?_cons_zero, List.getElem?_cons_succ, List.getElem?_nil,
        Option.some.injEq] at hx <;>
      first
        | exact absurd hx (by simp)
        | (subst hx; simp [hyphen_not_alnum, ht])
        | (have hk := key _ _ ht.2.2.2.2.2.2.2 hx; simp [hyphen_not_alnum, hk])


theorem hyphenate_count (t : List Char) (ht : ∀ c ∈ t, isUpperAlnum c = true) :
    (hyphenate t).count '-' ≤ 2 := by
  have key : ∀ r : List Char, (∀ c ∈ r, isUpperAlnum c = true) → r.count '-' = 0 := by
    intro r hr
    exact List.count_eq_zero.2 (fun hmem => hyphen_not_alnum (hr _ hmem) rfl)
  have h2 : (hyphenate t).count '-' ≤ t.count '-' + 2 := by
    rcases t with _ | ⟨a, _ | ⟨b, _ | ⟨c, _ | ⟨d, _ | ⟨e, _ | ⟨f, _ | ⟨g, r⟩⟩⟩⟩⟩⟩⟩ <;>
      simp only [hyphenate, List.count_cons, List.count_nil, beq_self_eq_true, if_true] <;>
      omega
  have h0 := key t ht
  omega

theorem hyphenate_head (t : List Char) (ht : ∀ c ∈ t, isUpperAlnum c = true) :
    (hyphenate t).head? ≠ some '-' := by
  rcases t with _ | ⟨a, _ | ⟨b, _ | ⟨c, _ | ⟨d, _ | ⟨e, _ | ⟨f, _ | ⟨g, r⟩⟩⟩⟩⟩⟩⟩ <;>
    simp only [hyphenate, List.forall_mem_cons] at ht ⊢ <;>
    simp [hyphen_not_alnum, ht]

theorem hyphenate_getLast (t : List Char) (ht : ∀ c ∈ t, isUpperAlnum c = true) :
    (hyphenate t).getLast? ≠ some '-' := by
  have key : ∀ r : List Char, (∀ c ∈ r, isUpperAlnum c = true) → r.getLast? ≠ some '-' := by
    intro r hr h
    exact hyphen_not_alnum (hr _ (List.mem_of_getLast?_eq_some h)) rfl
  rcases t with _ | ⟨a, _ | ⟨b, _ | ⟨c, _ | ⟨d, _ | ⟨e, _ | ⟨f, _ | ⟨g, r⟩⟩⟩⟩⟩⟩⟩ <;>
    simp only [hyphenate, List.forall_mem_cons, List.getLast?_cons_cons] at ht ⊢
  · simp
  · simp [hyphen_not_alnum, ht]
  · simp [hyphen_not_alnum, ht]
  · simp [hyphen_not_alnum, ht]
  · simp [hyphen_not_alnum, ht]
  · simp [hyphen_not_alnum, ht]
  · simp [hyphen_not_alnum, ht]
  · exact key (g :: r) (by simpa using ht.2.2.2.2.2.2)


theorem filter_alnum_self (r : List Char) (hr : ∀ c ∈ r, isUpperAlnum c = true) :
    r.filter isUpperAlnum = r :=
  List.filter_eq_self.2 hr

theorem hyphenate_strip (t : List Char) (ht : ∀ c ∈ t, isUpperAlnum c = true) :
    (hyphenate t).filter isUpperAlnum = t := by
  have hm : isUpperAlnum '-' = false := by decide
  rcases t with _ | ⟨a, _ | ⟨b, _ | ⟨c, _ | ⟨d, _ | ⟨e, _ | ⟨f, _ | ⟨g, r⟩⟩⟩⟩⟩⟩⟩ <;>
    simp only [hyphenate, List.forall_mem_cons] at ht ⊢ <;>
    simp [List.filter_cons, ht, hm]
  exact ht.2.2.2.2.2.2.2

theorem hyphenate_removeHyphens (t : List Char) (ht : ∀ c ∈ t, isUpperAlnum c = true) :
    (hyphenate t).filter (fun c => c != '-') = t := by
  have key : ∀ r : List Char, (∀ c ∈ r, isUpperAlnum c = true) →
      r.filter (fun c => c != '-') = r := by
    intro r hr
    refine List.filter_eq_self.2 (fun c hc => ?_)
    simpa using hyphen_not_alnum (hr c hc)
  have h1 : (hyphenate t).filter (fun c => c != '-') = t.filter (fun c => c != '-') := by
    rcases t with _ | ⟨a, _ | ⟨b, _ | ⟨c, _ | ⟨d, _ | ⟨e, _ | ⟨f, _ | ⟨g, r⟩⟩⟩⟩⟩⟩⟩ <;>
      simp [hyphenate, List.filter_cons]
  rw [h1, key t ht]

theorem toUpperCase_canonical (E : Engine) (v : String)
    (hv : ∀ c ∈ v.data, isUpperAlnum c = true ∨ c = '-') : toUpperCase E v = v := by
  have hascii : isAscii v = true := by
    simp only [isAscii, List.all_eq_true, decide_eq_true_eq]
    intro c hc
    rcases hv c hc with h | rfl
    · simp only [isUpperAlnum, Bool.or_eq_true, Bool.and_eq_true, decide_eq_true_eq] at h
      omega
    · decide
  have hfix : ∀ c ∈ v.data, Char.toUpper c = c := by
    intro c hc
    rcases hv c hc with h | rfl
    · simp only [isUpperAlnum, Bool.or_eq_true, Bool.and_eq_true, decide_eq_true_eq] at h
      simp only [Char.toUpper]
      rw [if_neg]
      omega
    · decide
  unfold toUpperCase
  rw [if_pos hascii]
  apply string_ext_data
  show v.data.map Char.toUpper = v.data
  conv_rhs => rw [← List.map_id v.data]
  exact List.map_congr_left (fun c hc => by simpa using hfix c hc)

/-- C10. The formatter is the specification's three-case function of the
stripped, upper-cased input, and removing the hyphens from its output gives
that stripped string back. -/
theorem formatDigipinInput_eq_formatSpec (E : Engine) (s : String) :
    formatDigipinInput E s = formatSpec (stripNonAlnum (toUpperCase E s)) ∧
    removeHyphens (formatDigipinInput E s) = stripNonAlnum (toUpperCase E s) := by
  constructor
  · apply string_ext_data
    rw [formatDigipinInput_data, formatSpec_data]
  · apply string_ext_data
    show (formatDigipinInput E s).data.filter (fun c => c != '-') = _
    rw [formatDigipinInput_data]
    exact hyphenate_removeHyphens _ (stripNonAlnum_alnum _)

/-- C1. The formatter's output holds only characters of `[A-Z0-9-]`, at most
two hyphens, a hyphen exactly at the output indices 3 and 7 that exist and
an upper-case alphanumeric character at every other index, and neither
starts nor ends with a hyphen. -/
theorem formatDigipinInput_shape (E : Engine) (s : String) :
    (∀ c ∈ (formatDigipinInput E s).data, isUpperAlnum c = true ∨ c = '-') ∧
    (formatDigipinInput E s).data.count '-' ≤ 2 ∧
    (∀ (i : Nat) (x : Char), (formatDigipinInput E s).data[i]? = some x →
      (x = '-' ↔ (i = 3 ∨ i = 7)) ∧ (i ≠ 3 → i ≠ 7 → isUpperAlnum x = true)) ∧
    (formatDigipinInput E s).data.head? ≠ some '-' ∧
    (formatDigipinInput E s).data.getLast? ≠ some '-' := by
  rw [formatDigipinInput_data]
  have ht := stripNonAlnum_alnum (toUpperCase E s)
  exact ⟨hyphenate_mem _ ht, hyphenate_count _ ht, hyphenate_index _ ht,
    hyphenate_head _ ht, hyphenate_getLast _ ht⟩

/-- C2. Formatting is idempotent. -/
theorem formatDigipinInput_idempotent (E : Engine) (s : String) :
    formatDigipinInput E (formatDigipinInput E s) = formatDigipinInput E s := by
  have ht := stripNonAlnum_alnum (toUpperCase E s)
  have hcanon : ∀ c ∈ (formatDigipinInput E s).data, isUpperAlnum c = true ∨ c = '-' := by
    rw [formatDigipinInput_data]
    exact hyphenate_mem _ ht
  apply string_ext_data
  rw [formatDigipinInput_data E (formatDigipinInput E s), toUpperCase_canonical E _ hcanon]
  have hs : (stripNonAlnum (formatDigipinInput E s)).data
      = (stripNonAlnum (toUpperCase E s)).data := by
    show (formatDigipinInput E s).data.filter isUpperAlnum = _
    rw [formatDigipinInput_data]
    exact hyphenate_strip _ ht
  rw [hs, formatDigipinInput_data]

/-- C3 (as the code behaves). The output is the stripped string plus one
hyphen beyond three characters and a second beyond six, with no truncation:
it has at most 12 characters exactly when the stripped string has at most
10, and `abc123xyz456` is formatted to the 14 characters `ABC-123-XYZ456`. -/
theorem formatDigipinInput_length (E : Engine) (s : String) :
    (formatDigipinInput E s).length =
      (stripNonAlnum (toUpperCase E s)).length +
        (if (stripNonAlnum (toUpperCase E s)).length ≤ 3 then 0
         else if (stripNonAlnum (toUpperCase E s)).length ≤ 6 then 1 else 2) ∧
    ((formatDigipinInput E s).length ≤ 12 ↔ (stripNonAlnum (toUpperCase E s)).length ≤ 10) ∧
    formatDigipinInput E "abc123xyz456" = "ABC-123-XYZ456" := by
  have hlen : (formatDigipinInput E s).length =
      (stripNonAlnum (toUpperCase E s)).length +
        (if (stripNonAlnum (toUpperCase E s)).length ≤ 3 then 0
         else if (stripNonAlnum (toUpperCase E s)).length ≤ 6 then 1 else 2) := by
    show (formatDigipinInput E s).data.length = _
    rw [formatDigipinInput_data]
    generalize stripNonAlnum (toUpperCase E s) = v
    obtain ⟨t⟩ := v
    rcases t with _ | ⟨a, _ | ⟨b, _ | ⟨c, _ | ⟨d, _ | ⟨e, _ | ⟨f, _ | ⟨g, r⟩⟩⟩⟩⟩⟩⟩ <;>
      simp [hyphenate, String.length]
  refine ⟨hlen, ?_, by rfl⟩
  rw [hlen]
  split_ifs <;> omega

/-- C3, counterexample. The input `abc123xyz456` is formatted to
`ABC-123-XYZ456`, which has 14 characters and is not `ABC-123-XYZ4`. -/
theorem formatDigipinInput_length_counterexample :
    formatDigipinInput sampleEngine "abc123xyz456" = "ABC-123-XYZ456" ∧
    ¬ ((formatDigipinInput sampleEngine "abc123xyz456").length ≤ 12) ∧
    formatDigipinInput sampleEngine "abc123xyz456" ≠ "ABC-123-XYZ4" := by
  decide


/-! ## Geocode client -/

/-- C6 (as the code behaves). On a non-success response whose body parses to
an object, the client fails with the `error` property when that is a
non-empty string and with the fallback message when the property is absent
or the empty string; when the body does not parse, it fails with the error
of the parser. On a success response it gives what `json()` gives. -/
theorem geocodeClient_normalisation (E : Engine) (latitude longitude : Double)
    (digipin : String) (w : World) (response : Response) :
    (response.ok = false →
      (∀ fields message, response.json = .ok (.obj fields) →
        fields.lookup "error" = some (.str message) → message ≠ "" →
        (encodeDigipin E (.resolved response) latitude longitude w).2
          = .error (newError message) ∧
        (decodeDigipin E (.resolved response) digipin w).2 = .error (newError message)) ∧
      (∀ fields, response.json = .ok (.obj fields) →
        (fields.lookup "error" = none ∨ fields.lookup "error" = some (.str "")) →
        (encodeDigipin E (.resolved response) latitude longitude w).2
          = .error (newError "Failed to generate DIGIPIN") ∧
        (decodeDigipin E (.resolved response) digipin w).2
          = .error (newError "Failed to decode DIGIPIN")) ∧
      (∀ e, response.json = .error e →
        (encodeDigipin E (.resolved response) latitude longitude w).2 = .error e ∧
        (decodeDigipin E (.resolved response) digipin w).2 = .error e)) ∧
    (response.ok = true →
      (encodeDigipin E (.resolved response) latitude longitude w).2 = response.json ∧
      (decodeDigipin E (.resolved response) digipin w).2 = response.json) := by
  obtain ⟨ok, json⟩ := response
  refine ⟨fun hok => ⟨?_, ?_, ?_⟩, fun hok => ?_⟩
  · intro fields message hjson hfield hne
    simp only at hok hjson
    subst hok hjson
    simp [encodeDigipin, decodeDigipin, readResponse, getProp, hfield, truthy, hne, toStr]
  · intro fields hjson hfield
    simp only at hok hjson
    subst hok hjson
    rcases hfield with hfield | hfield <;>
      simp [encodeDigipin, decodeDigipin, readResponse, getProp, hfield, truthy, toStr]
  · intro e hjson
    simp only at hok hjson
    subst hok hjson
    simp [encodeDigipin, decodeDigipin, readResponse]
  · simp only at hok
    subst hok
    simp [encodeDigipin, decodeDigipin, readResponse]

/-- C6, witness. The three non-success cases and the success case at
concrete responses. -/
theorem geocodeClient_normalisation_witness :
    ((encodeDigipin sampleEngine
        (.resolved ⟨false, .ok (.obj [("error", .str "Invalid DIGIPIN")])⟩)
        sampleLatitude sampleLongitude sampleWorld).2
        = .error (newError "Invalid DIGIPIN") ∧
      (decodeDigipin sampleEngine
        (.resolved ⟨false, .ok (.obj [("error", .str "Invalid DIGIPIN")])⟩)
        "39J-438-TJC7" sampleWorld).2 = .error (newError "Invalid DIGIPIN")) ∧
    ((encodeDigipin sampleEngine (.resolved ⟨false, .ok (.obj [])⟩)
        sampleLatitude sampleLongitude sampleWorld).2
        = .error (newError "Failed to generate DIGIPIN") ∧
      (decodeDigipin sampleEngine (.resolved ⟨false, .ok (.obj [])⟩)
        "39J-438-TJC7" sampleWorld).2 = .error (newError "Failed to decode DIGIPIN")) ∧
    ((encodeDigipin sampleEngine
        (.resolved ⟨true, .ok (.obj [("digipin", .str "39J-438-TJC7")])⟩)
        sampleLatitude sampleLongitude sampleWorld).2
        = .ok (.obj [("digipin", .str "39J-438-TJC7")]) ∧
      (decodeDigipin sampleEngine
        (.resolved ⟨true, .ok (.obj [("digipin", .str "39J-438-TJC7")])⟩)
        "39J-438-TJC7" sampleWorld).2 = .ok (.obj [("digipin", .str "39J-438-TJC7")])) :=
  ⟨(geocodeClient_normalisation sampleEngine sampleLatitude sampleLongitude
      "39J-438-TJC7" sampleWorld
      ⟨false, .ok (.obj [("error", .str "Invalid DIGIPIN")])⟩).1 rfl |>.1
      [("error", .str "Invalid DIGIPIN")] "Invalid DIGIPIN" rfl rfl (by decide),
   (geocodeClient_normalisation sampleEngine sampleLatitude sampleLongitude
      "39J-438-TJC7" sampleWorld ⟨false, .ok (.obj [])⟩).1 rfl |>.2.1 [] rfl (Or.inl rfl),
   (geocodeClient_normalisation sampleEngine sampleLatitude sampleLongitude
      "39J-438-TJC7" sampleWorld
      ⟨true, .ok (.obj [("digipin", .str "39J-438-TJC7")])⟩).2 rfl⟩

/-- C6, counterexample. A non-success response whose body is not JSON makes
both client functions fail with the parser's error, whose message is not
the fallback message. -/
theorem geocodeClient_unparsable_counterexample :
    (encodeDigipin sampleEngine
      (.resolved ⟨false, .error ⟨"SyntaxError", "Unexpected end of JSON input"⟩⟩)
      sampleLatitude sampleLongitude sampleWorld).2
      = .error ⟨"SyntaxError", "Unexpected end of JSON input"⟩ ∧
    (decodeDigipin sampleEngine
      (.resolved ⟨false, .error ⟨"SyntaxError", "Unexpected end of JSON input"⟩⟩)
      "39J-438-TJC7" sampleWorld).2
      = .error ⟨"SyntaxError", "Unexpected end of JSON input"⟩ ∧
    (⟨"SyntaxError", "Unexpected end of JSON input"⟩ : JsError).message
      ≠ "Failed to generate DIGIPIN" ∧
    (⟨"SyntaxError", "Unexpected end of JSON input"⟩ : JsError).message
      ≠ "Failed to decode DIGIPIN" :=
  ⟨rfl, rfl, by decide, by decide⟩


/-! ## Generate and decode flows -/

/-- C5. Whatever the acquirer, the encode call and the map construction do,
`generateBtn` is enabled when `handleGenerate` has completed; and whenever
the trimmed, upper-cased input is not empty, whatever the decode call does,
`decodeBtn` is enabled and labelled `Find` when `handleDecode` has completed. -/
theorem trigger_reenabled (E : Engine) :
    (∀ (env : GenerateEnv) (w : World), (handleGenerate E env w).generateBtnDisabled = false) ∧
    (∀ (outcome : FetchOutcome) (w : World), toUpperCase E (trim w.decodeInputValue) ≠ "" →
      (handleDecode E outcome w).decodeBtnDisabled = false ∧
      (handleDecode E outcome w).decodeBtnText = "Find") := by
  refine ⟨fun env w => rfl, fun outcome w hne => ?_⟩
  simp [handleDecode, hne]

/-- C5, witness. A decode of `39J-438-TJC7` answered by a non-success
response leaves the button enabled and labelled `Find`. -/
theorem trigger_reenabled_witness :
    toUpperCase sampleEngine (trim "39J-438-TJC7") ≠ "" ∧
    (handleDecode sampleEngine
      (.resolved ⟨false, .ok (.obj [("error", .str "Invalid DIGIPIN")])⟩)
      { sampleWorld with decodeInputValue := "39J-438-TJC7" }).decodeBtnDisabled = false ∧
    (handleDecode sampleEngine
      (.resolved ⟨false, .ok (.obj [("error", .str "Invalid DIGIPIN")])⟩)
      { sampleWorld with decodeInputValue := "39J-438-TJC7" }).decodeBtnText = "Find" :=
  ⟨by decide, (trigger_reenabled sampleEngine).2
    (.resolved ⟨false, .ok (.obj [("error", .str "Invalid DIGIPIN")])⟩)
    { sampleWorld with decodeInputValue := "39J-438-TJC7" } (by decide)⟩

/-- C7. When the acquirer fails, `handleGenerate` makes no request beyond
the position query itself, ends with the error banner shown and holding the
acquirer's message (the message of the failure kind), with the loading
indicator and the result section hidden, and leaves the map untouched. -/
theorem handleGenerate_positioning_failure (E : Engine) (env : GenerateEnv) (w : World)
    (e : JsError) (hfail : (getUserLocation env.geolocation w).2 = .error e) :
    ((handleGenerate E env w).log = w.log ∨
      (handleGenerate E env w).log = w.log ++ [.getCurrentPosition true 10000 0]) ∧
    (∀ url, Effect.fetch url ∈ (handleGenerate E env w).log → Effect.fetch url ∈ w.log) ∧
    (handleGenerate E env w).errorMsgDisplay = "flex" ∧
    (handleGenerate E env w).errorText = e.message ∧
    (handleGenerate E env w).loadingMsgDisplay = "none" ∧
    (handleGenerate E env w).resultSectionDisplay = "none" ∧
    (handleGenerate E env w).liveMaps = w.liveMaps ∧
    (handleGenerate E env w).map = w.map ∧
    (handleGenerate E env w).marker = w.marker ∧
    (env.geolocation = none → e.message = "Geolocation is not supported by your browser") ∧
    (env.geolocation = some (.error 1) → e.message = "Please allow location access.") ∧
    (env.geolocation = some (.error 2) → e.message = "Location unavailable. Check GPS.") ∧
    (env.geolocation = some (.error 3) → e.message = "Location request timed out.") ∧
    (∀ code, code ≠ 1 → code ≠ 2 → code ≠ 3 → env.geolocation = some (.error code) →
      e.message = "Unable to get your location") := by
  obtain ⟨geolocation, encode, mapFailure⟩ := env
  rcases geolocation with _ | ⟨latitude, longitude, accuracy⟩ | code
  · simp only [getUserLocation, Except.error.injEq] at hfail
    subst hfail
    simp [handleGenerate, handleGenerateTry, handleGenerateCatch, getUserLocation, showError, hideLoading,
      hideError, showLoading, newError]
  · simp [getUserLocation] at hfail
  · simp only [getUserLocation, Except.error.injEq] at hfail
    subst hfail
    simp [handleGenerate, handleGenerateTry, handleGenerateCatch, getUserLocation, showError, hideLoading,
      hideError, showLoading, newError]
    refine ⟨fun h1 h2 => absurd h1 h2, ?_, ?_, ?_⟩
    · rintro rfl
      simp
    · rintro rfl
      simp
    · rintro c h1 h2 h3 rfl
      simp [h1, h2, h3]

/-- C7, witness. A denied permission at the page's load state. -/
theorem handleGenerate_positioning_failure_witness :
    (getUserLocation (some (.error 1)) sampleWorld).2
      = .error (newError "Please allow location access.") ∧
    (handleGenerate sampleEngine ⟨some (.error 1), .rejected ⟨"TypeError", "Failed to fetch"⟩,
      none⟩ sampleWorld).log = [.getCurrentPosition true 10000 0] ∧
    (handleGenerate sampleEngine ⟨some (.error 1), .rejected ⟨"TypeError", "Failed to fetch"⟩,
      none⟩ sampleWorld).errorText = "Please allow location access." ∧
    (handleGenerate sampleEngine ⟨some (.error 1), .rejected ⟨"TypeError", "Failed to fetch"⟩,
      none⟩ sampleWorld).errorMsgDisplay = "flex" :=
  ⟨rfl, by decide,
    (handleGenerate_positioning_failure sampleEngine
      ⟨some (.error 1), .rejected ⟨"TypeError", "Failed to fetch"⟩, none⟩ sampleWorld
      (newError "Please allow location access.") rfl).2.2.2.1,
    (handleGenerate_positioning_failure sampleEngine
      ⟨some (.error 1), .rejected ⟨"TypeError", "Failed to fetch"⟩, none⟩ sampleWorld
      (newError "Please allow location access.") rfl).2.2.1⟩


/-! ## Session state -/

theorem removeExistingMap_currentLocation (w : World) :
    (removeExistingMap w).currentLocation = w.currentLocation := by
  unfold removeExistingMap
  split <;> rfl

theorem removeExistingMap_currentDigipin (w : World) :
    (removeExistingMap w).currentDigipin = w.currentDigipin := by
  unfold removeExistingMap
  split <;> rfl

theorem initMap_currentLocation (E : Engine) (mapFailure : Option JsError)
    (latitude longitude : Double) (label : JsVal) (w : World) :
    (initMap E mapFailure latitude longitude label w).1.currentLocation
      = w.currentLocation := by
  unfold initMap
  cases mapFailure <;> simp [updateMap, removeExistingMap_currentLocation]

theorem initMap_currentDigipin (E : Engine) (mapFailure : Option JsError)
    (latitude longitude : Double) (label : JsVal) (w : World) :
    (initMap E mapFailure latitude longitude label w).1.currentDigipin
      = w.currentDigipin := by
  unfold initMap
  cases mapFailure <;> simp [updateMap, removeExistingMap_currentDigipin]

theorem displayResults_currentLocation (E : Engine) (mapFailure : Option JsError) (w : World) :
    (displayResults E mapFailure w).1.currentLocation = w.currentLocation := by
  unfold displayResults
  dsimp only
  split
  · rfl
  · split
    · rename_i w1 e heq
      have hw1 := (congrArg Prod.fst heq).symm
      simp only at hw1
      subst hw1
      simp [initMap_currentLocation]
    · rename_i w1 heq
      have hw1 := (congrArg Prod.fst heq).symm
      simp only at hw1
      subst hw1
      simp [initMap_currentLocation]

theorem displayResults_currentDigipin (E : Engine) (mapFailure : Option JsError) (w : World) :
    (displayResults E mapFailure w).1.currentDigipin = w.currentDigipin := by
  unfold displayResults
  dsimp only
  split
  · rfl
  · split
    · rename_i w1 e heq
      have hw1 := (congrArg Prod.fst heq).symm
      simp only at hw1
      subst hw1
      simp [initMap_currentDigipin]
    · rename_i w1 heq
      have hw1 := (congrArg Prod.fst heq).symm
      simp only at hw1
      subst hw1
      simp [initMap_currentDigipin]

theorem handleGenerateCatch_currentLocation (p : World × Option JsError) :
    (handleGenerateCatch p).currentLocation = p.1.currentLocation := by
  rcases p with ⟨w, _ | e⟩ <;> rfl

theorem handleGenerateCatch_currentDigipin (p : World × Option JsError) :
    (handleGenerateCatch p).currentDigipin = p.1.currentDigipin := by
  rcases p with ⟨w, _ | e⟩ <;> rfl

theorem handleGenerate_session (E : Engine) (env : GenerateEnv) (w : World) :
    (handleGenerate E env w).currentLocation =
      (match env.geolocation with
        | some (.position latitude longitude accuracy) =>
          some ⟨latitude, longitude, some accuracy⟩
        | _ => w.currentLocation) ∧
    (handleGenerate E env w).currentDigipin =
      (match env.geolocation with
        | some (.position _ _ _) =>
          match readResponse E "Failed to generate DIGIPIN" env.encode with
          | .ok data =>
            match getProp E data "digipin" with
            | .ok digipin => digipin
            | .error _ => w.currentDigipin
          | .error _ => w.currentDigipin
        | _ => w.currentDigipin) := by
  obtain ⟨geolocation, encode, mapFailure⟩ := env
  rcases geolocation with _ | ⟨latitude, longitude, accuracy⟩ | code
  · exact ⟨rfl, rfl⟩
  · cases hr : readResponse E "Failed to generate DIGIPIN" encode with
    | error e =>
      simp [handleGenerate, handleGenerateTry, getUserLocation, encodeDigipin, hr,
        handleGenerateCatch_currentLocation, handleGenerateCatch_currentDigipin,
        hideError, showLoading]
    | ok data =>
      cases hp : getProp E data "digipin" with
      | error e =>
        simp [handleGenerate, handleGenerateTry, getUserLocation, encodeDigipin, hr, hp,
          handleGenerateCatch_currentLocation, handleGenerateCatch_currentDigipin,
          hideError, showLoading]
      | ok digipin =>
        simp [handleGenerate, handleGenerateTry, getUserLocation, encodeDigipin, hr, hp,
          handleGenerateCatch_currentLocation, handleGenerateCatch_currentDigipin,
          displayResults_currentLocation, displayResults_currentDigipin, hideLoading]
  · exact ⟨rfl, rfl⟩


theorem handleDecodeCatch_session (p : World × Option JsError) :
    (handleDecodeCatch p).currentLocation = p.1.currentLocation ∧
    (handleDecodeCatch p).currentDigipin = p.1.currentDigipin := by
  rcases p with ⟨w, _ | e⟩ <;> exact ⟨rfl, rfl⟩

theorem handleDecodeTry_session (E : Engine) (decode : FetchOutcome) (input : String)
    (w : World) :
    (handleDecodeTry E decode input w).1.currentLocation = w.currentLocation ∧
    (handleDecodeTry E decode input w).1.currentDigipin = w.currentDigipin := by
  unfold handleDecodeTry decodeDigipin
  dsimp only
  cases readResponse E "Failed to decode DIGIPIN" decode with
  | error e => exact ⟨rfl, rfl⟩
  | ok data =>
    dsimp only
    cases getProp E data "latitude" <;> cases getProp E data "longitude" <;> exact ⟨rfl, rfl⟩

theorem handleDecode_session (E : Engine) (decode : FetchOutcome) (w : World) :
    (handleDecode E decode w).currentLocation = w.currentLocation ∧
    (handleDecode E decode w).currentDigipin = w.currentDigipin := by
  unfold handleDecode
  dsimp only
  split
  · exact ⟨rfl, rfl⟩
  · have h1 := handleDecodeCatch_session (handleDecodeTry E decode
      (toUpperCase E (trim w.decodeInputValue))
      { w with decodeBtnDisabled := true, decodeBtnText := "...", decodeResultDisplay := "none" })
    have h2 := handleDecodeTry_session E decode (toUpperCase E (trim w.decodeInputValue))
      { w with decodeBtnDisabled := true, decodeBtnText := "...", decodeResultDisplay := "none" }
    exact ⟨h1.1.trans h2.1, h1.2.trans h2.2⟩

theorem showDecodeOnMap_session (E : Engine) (mapFailure : Option JsError) (w : World) :
    (showDecodeOnMap E mapFailure w).1.currentLocation =
      some ⟨E.parseFloat (toStr E (datasetValue w.datasetLat)),
        E.parseFloat (toStr E (datasetValue w.datasetLon)), none⟩ ∧
    (showDecodeOnMap E mapFailure w).1.currentDigipin = datasetValue w.datasetDigipin := by
  unfold showDecodeOnMap
  simp [initMap_currentLocation, initMap_currentDigipin]

theorem copyToClipboard_session (E : Engine) (written : Bool) (w : World) :
    (copyToClipboard E written w).currentLocation = w.currentLocation ∧
    (copyToClipboard E written w).currentDigipin = w.currentDigipin := by
  unfold copyToClipboard
  dsimp only
  split
  · exact ⟨rfl, rfl⟩
  · split <;> exact ⟨rfl, rfl⟩

theorem openGoogleMaps_session (E : Engine) (w : World) :
    (openGoogleMaps E w).currentLocation = w.currentLocation ∧
    (openGoogleMaps E w).currentDigipin = w.currentDigipin := by
  unfold openGoogleMaps
  split <;> exact ⟨rfl, rfl⟩

theorem shareDigipin_session (E : Engine) (share : Option (Option JsError)) (written : Bool)
    (w : World) :
    (shareDigipin E share written w).currentLocation = w.currentLocation ∧
    (shareDigipin E share written w).currentDigipin = w.currentDigipin := by
  unfold shareDigipin
  split
  · exact ⟨rfl, rfl⟩
  · split
    · exact ⟨rfl, rfl⟩
    · dsimp only
      split
      · split
        · exact ⟨rfl, rfl⟩
        · split
          · exact copyToClipboard_session E written _
          · exact ⟨rfl, rfl⟩
      · exact copyToClipboard_session E written w

theorem step_codeHasLocation (E : Engine) (w : World) (a : Action) (h : codeHasLocation w) :
    codeHasLocation (step E w a) := by
  unfold codeHasLocation at h ⊢
  cases a with
  | generate env =>
    obtain ⟨h1, h2⟩ := handleGenerate_session E env w
    simp only [step]
    rw [h1, h2]
    obtain ⟨geolocation, encode, mapFailure⟩ := env
    rcases geolocation with _ | ⟨latitude, longitude, accuracy⟩ | code
    · exact h
    · intro _
      simp
    · exact h
  | decode outcome =>
    obtain ⟨h1, h2⟩ := handleDecode_session E outcome w
    simp only [step]
    rw [h1, h2]
    exact h
  | showOnMap mapFailure =>
    obtain ⟨h1, h2⟩ := showDecodeOnMap_session E mapFailure w
    simp only [step]
    rw [h1]
    intro _
    simp
  | input typed => exact h
  | copy written =>
    obtain ⟨h1, h2⟩ := copyToClipboard_session E written w
    simp only [step]
    rw [h1, h2]
    exact h
  | openMaps =>
    obtain ⟨h1, h2⟩ := openGoogleMaps_session E w
    simp only [step]
    rw [h1, h2]
    exact h
  | share share written =>
    obtain ⟨h1, h2⟩ := shareDigipin_session E share written w
    simp only [step]
    rw [h1, h2]
    exact h
  | tab tabId => exact h

theorem run_codeHasLocation (E : Engine) (actions : List Action) (w : World)
    (h : codeHasLocation w) : codeHasLocation (run E w actions) := by
  induction actions generalizing w with
  | nil => exact h
  | cons a rest ih => exact ih (step E w a) (step_codeHasLocation E w a h)

theorem truthy_ne_null {v : JsVal} (h : truthy v = true) : v ≠ .json .null := by
  rintro rfl
  simp [truthy] at h


/-- C4 (as the code behaves). From the load state, after any sequence of
actions a code that is set (not `null`, in particular a truthy one) comes
with a location that is set. A generate run that fails at acquisition leaves
both fields as they were; one that fails at encoding leaves the code as it
was but has already stored the acquired position; one whose encode call
succeeds stores the acquired position and the `digipin` property of the
body; `handleDecode` changes neither field; `showDecodeOnMap` writes both
from the pending decode data. -/
theorem session_pairing (E : Engine) :
    (∀ (w0 : World) (actions : List Action), w0.atLoad →
      ((run E w0 actions).currentDigipin ≠ .json .null →
        (run E w0 actions).currentLocation ≠ none) ∧
      (truthy (run E w0 actions).currentDigipin = true →
        (run E w0 actions).currentLocation ≠ none)) ∧
    (∀ (env : GenerateEnv) (w : World) (e : JsError),
      (getUserLocation env.geolocation w).2 = .error e →
      (handleGenerate E env w).currentLocation = w.currentLocation ∧
      (handleGenerate E env w).currentDigipin = w.currentDigipin) ∧
    (∀ (env : GenerateEnv) (w : World) (location : Location) (e : JsError),
      (getUserLocation env.geolocation w).2 = .ok location →
      (encodeDigipin E env.encode location.latitude location.longitude w).2 = .error e →
      (handleGenerate E env w).currentLocation = some location ∧
      (handleGenerate E env w).currentDigipin = w.currentDigipin) ∧
    (∀ (env : GenerateEnv) (w : World) (location : Location) (data : Json) (digipin : JsVal),
      (getUserLocation env.geolocation w).2 = .ok location →
      (encodeDigipin E env.encode location.latitude location.longitude w).2 = .ok data →
      getProp E data "digipin" = .ok digipin →
      (handleGenerate E env w).currentLocation = some location ∧
      (handleGenerate E env w).currentDigipin = digipin) ∧
    (∀ (outcome : FetchOutcome) (w : World),
      (handleDecode E outcome w).currentLocation = w.currentLocation ∧
      (handleDecode E outcome w).currentDigipin = w.currentDigipin) ∧
    (∀ (mapFailure : Option JsError) (w : World),
      (showDecodeOnMap E mapFailure w).1.currentLocation =
        some ⟨E.parseFloat (toStr E (datasetValue w.datasetLat)),
          E.parseFloat (toStr E (datasetValue w.datasetLon)), none⟩ ∧
      (showDecodeOnMap E mapFailure w).1.currentDigipin = datasetValue w.datasetDigipin) := by
  refine ⟨?_, ?_, ?_, ?_, handleDecode_session E, showDecodeOnMap_session E⟩
  · intro w0 actions h0
    have hinv : codeHasLocation (run E w0 actions) := by
      apply run_codeHasLocation
      intro hne
      exact absurd h0.2.1 hne
    exact ⟨hinv, fun ht => hinv (truthy_ne_null ht)⟩
  · intro env w e hfail
    obtain ⟨h1, h2⟩ := handleGenerate_session E env w
    obtain ⟨geolocation, encode, mapFailure⟩ := env
    rcases geolocation with _ | ⟨latitude, longitude, accuracy⟩ | code
    · exact ⟨h1, h2⟩
    · simp [getUserLocation] at hfail
    · exact ⟨h1, h2⟩
  · intro env w location e hloc henc
    obtain ⟨h1, h2⟩ := handleGenerate_session E env w
    obtain ⟨geolocation, encode, mapFailure⟩ := env
    rcases geolocation with _ | ⟨latitude, longitude, accuracy⟩ | code
    · simp [getUserLocation] at hloc
    · simp only [getUserLocation, Except.ok.injEq] at hloc
      simp only [encodeDigipin] at henc
      simp only [henc] at h2
      subst hloc
      rw [h1, h2]
      exact ⟨rfl, rfl⟩
    · simp [getUserLocation] at hloc
  · intro env w location data digipin hloc henc hprop
    obtain ⟨h1, h2⟩ := handleGenerate_session E env w
    obtain ⟨geolocation, encode, mapFailure⟩ := env
    rcases geolocation with _ | ⟨latitude, longitude, accuracy⟩ | code
    · simp [getUserLocation] at hloc
    · simp only [getUserLocation, Except.ok.injEq] at hloc
      simp only [encodeDigipin] at henc
      simp only [henc, hprop] at h2
      subst hloc
      rw [h1, h2]
      exact ⟨rfl, rfl⟩
    · simp [getUserLocation] at hloc

/-- C4, witness. The invariant after a generate run whose encode call
succeeds, followed by a decode and a show-on-map, from the page at load. -/
theorem session_pairing_witness :
    sampleWorld.atLoad ∧
    (truthy (run sampleEngine sampleWorld
      [.generate ⟨some (.position sampleLatitude sampleLongitude ⟨0⟩),
        .resolved ⟨true, .ok (.obj [("digipin", .str "39J-438-TJC7")])⟩, none⟩,
       .input "39j438tjc7",
       .decode (.resolved ⟨true, .ok (.obj [("latitude", .num sampleLatitude),
        ("longitude", .num sampleLongitude)])⟩),
       .showOnMap none]).currentDigipin = true →
      (run sampleEngine sampleWorld
      [.generate ⟨some (.position sampleLatitude sampleLongitude ⟨0⟩),
        .resolved ⟨true, .ok (.obj [("digipin", .str "39J-438-TJC7")])⟩, none⟩,
       .input "39j438tjc7",
       .decode (.resolved ⟨true, .ok (.obj [("latitude", .num sampleLatitude),
        ("longitude", .num sampleLongitude)])⟩),
       .showOnMap none]).currentLocation ≠ none) ∧
    truthy (run sampleEngine sampleWorld
      [.generate ⟨some (.position sampleLatitude sampleLongitude ⟨0⟩),
        .resolved ⟨true, .ok (.obj [("digipin", .str "39J-438-TJC7")])⟩, none⟩,
       .input "39j438tjc7",
       .decode (.resolved ⟨true, .ok (.obj [("latitude", .num sampleLatitude),
        ("longitude", .num sampleLongitude)])⟩),
       .showOnMap none]).currentDigipin = true :=
  ⟨⟨rfl, rfl, rfl, rfl, rfl⟩,
    ((session_pairing sampleEngine).1 sampleWorld _ ⟨rfl, rfl, rfl, rfl, rfl⟩).2,
    by decide⟩

/-- C4, counterexample. From the page at load, a generate run whose position
query succeeds and whose encode call is answered by a non-success response
ends with a location set and no code: the two fields are not paired, and
the failed run has changed `currentLocation`. -/
theorem session_pairing_counterexample :
    sampleWorld.atLoad ∧
    (handleGenerate sampleEngine
      ⟨some (.position sampleLatitude sampleLongitude ⟨0⟩),
        .resolved ⟨false, .ok (.obj [("error", .str "Coordinates out of range")])⟩, none⟩
      sampleWorld).currentLocation
      = some ⟨sampleLatitude, sampleLongitude, some ⟨0⟩⟩ ∧
    (handleGenerate sampleEngine
      ⟨some (.position sampleLatitude sampleLongitude ⟨0⟩),
        .resolved ⟨false, .ok (.obj [("error", .str "Coordinates out of range")])⟩, none⟩
      sampleWorld).currentDigipin = .json .null ∧
    (handleGenerate sampleEngine
      ⟨some (.position sampleLatitude sampleLongitude ⟨0⟩),
        .resolved ⟨false, .ok (.obj [("error", .str "Coordinates out of range")])⟩, none⟩
      sampleWorld).errorText = "Coordinates out of range" ∧
    (handleGenerate sampleEngine
      ⟨some (.position sampleLatitude sampleLongitude ⟨0⟩),
        .resolved ⟨false, .ok (.obj [("error", .str "Coordinates out of range")])⟩, none⟩
      sampleWorld).currentLocation ≠ sampleWorld.currentLocation :=
  ⟨⟨rfl, rfl, rfl, rfl, rfl⟩, by decide, rfl, by decide, by decide⟩


/-! ## Auxiliary actions -/

/-- C9 (as the code behaves). Each auxiliary action is a no-op when the
field it guards on is unset: `copyToClipboard` without a truthy code,
`openGoogleMaps` without a location, `shareDigipin` without either. With
both unset all three are no-ops. -/
theorem auxiliary_noop (E : Engine) (w : World) :
    (truthy w.currentDigipin = false → ∀ written, copyToClipboard E written w = w) ∧
    (w.currentLocation = none → openGoogleMaps E w = w) ∧
    ((truthy w.currentDigipin = false ∨ w.currentLocation = none) →
      ∀ share written, shareDigipin E share written w = w) ∧
    (truthy w.currentDigipin = false → w.currentLocation = none →
      ∀ share written, copyToClipboard E written w = w ∧ openGoogleMaps E w = w ∧
        shareDigipin E share written w = w) := by
  have hcopy : truthy w.currentDigipin = false → ∀ written, copyToClipboard E written w = w := by
    intro h written
    simp [copyToClipboard, h]
  have hopen : w.currentLocation = none → openGoogleMaps E w = w := by
    intro h
    simp [openGoogleMaps, h]
  have hshare : (truthy w.currentDigipin = false ∨ w.currentLocation = none) →
      ∀ share written, shareDigipin E share written w = w := by
    intro h share written
    unfold shareDigipin
    cases hloc : w.currentLocation with
    | none => rfl
    | some location =>
      rcases h with h | h
      · simp [h]
      · rw [hloc] at h
        cases h
  exact ⟨hcopy, hopen, hshare,
    fun h1 h2 share written => ⟨hcopy h1 written, hopen h2, hshare (Or.inl h1) share written⟩⟩

/-- C9, witness. At the page's load state, where neither field is set, the
three actions change nothing. -/
theorem auxiliary_noop_witness :
    truthy sampleWorld.currentDigipin = false ∧ sampleWorld.currentLocation = none ∧
    copyToClipboard sampleEngine true sampleWorld = sampleWorld ∧
    openGoogleMaps sampleEngine sampleWorld = sampleWorld ∧
    shareDigipin sampleEngine (some none) true sampleWorld = sampleWorld :=
  ⟨rfl, rfl, (auxiliary_noop sampleEngine sampleWorld).2.2.2 rfl rfl (some none) true⟩

/-- C9, counterexample. After a generate run that failed at encoding the
session has a location and no code; `openGoogleMaps` then opens a window. -/
theorem auxiliary_noop_counterexample :
    truthy (handleGenerate sampleEngine
      ⟨some (.position sampleLatitude sampleLongitude ⟨0⟩),
        .resolved ⟨false, .ok (.obj [("error", .str "Coordinates out of range")])⟩, none⟩
      sampleWorld).currentDigipin = false ∧
    (openGoogleMaps sampleEngine (handleGenerate sampleEngine
      ⟨some (.position sampleLatitude sampleLongitude ⟨0⟩),
        .resolved ⟨false, .ok (.obj [("error", .str "Coordinates out of range")])⟩, none⟩
      sampleWorld)).log =
      (handleGenerate sampleEngine
      ⟨some (.position sampleLatitude sampleLongitude ⟨0⟩),
        .resolved ⟨false, .ok (.obj [("error", .str "Coordinates out of range")])⟩, none⟩
      sampleWorld).log ++
        [.windowOpen "https://www.google.com/maps?q=28.6139,77.209"
          "_blank"] ∧
    openGoogleMaps sampleEngine (handleGenerate sampleEngine
      ⟨some (.position sampleLatitude sampleLongitude ⟨0⟩),
        .resolved ⟨false, .ok (.obj [("error", .str "Coordinates out of range")])⟩, none⟩
      sampleWorld) ≠
      handleGenerate sampleEngine
      ⟨some (.position sampleLatitude sampleLongitude ⟨0⟩),
        .resolved ⟨false, .ok (.obj [("error", .str "Coordinates out of range")])⟩, none⟩
      sampleWorld := by
  refine ⟨rfl, by decide, ?_⟩
  intro h
  have hlog := congrArg World.log h
  revert hlog
  decide


/-! ## Map visualizer -/

theorem removeExistingMap_of_tracked (w : World) (h : mapTracked w) :
    (removeExistingMap w).liveMaps = [] ∧ (removeExistingMap w).map = none ∧
    (removeExistingMap w).nextMapId = w.nextMapId := by
  unfold mapTracked at h
  unfold removeExistingMap
  cases hmap : w.map with
  | none =>
    rw [hmap] at h
    simp only [Option.toList, List.map_eq_nil_iff] at h
    exact ⟨h, hmap, rfl⟩
  | some id =>
    rw [hmap] at h
    refine ⟨?_, rfl, rfl⟩
    rcases hl : w.liveMaps with _ | ⟨m, _ | ⟨m2, rest⟩⟩
    · rfl
    · rw [hl] at h
      simp only [Option.toList, List.map_cons, List.map_nil, List.cons.injEq, and_true] at h
      simp [h]
    · rw [hl] at h
      simp [Option.toList] at h

theorem initMap_of_tracked (E : Engine) (latitude longitude : Double) (label : JsVal)
    (w : World) (h : mapTracked w) :
    (initMap E none latitude longitude label w).1.liveMaps =
      [⟨w.nextMapId, "map", (latitude, longitude), 18,
        ["https://\x7bs\x7d.tile.openstreetmap.org/\x7bz\x7d/\x7bx\x7d/\x7by\x7d.png"],
        [⟨latitude, longitude, toStr E label,
          some (toStr E label, E.toFixed6 latitude ++ ", " ++ E.toFixed6 longitude), true⟩],
        [⟨latitude, longitude, circleRadius⟩]⟩] ∧
    (initMap E none latitude longitude label w).1.map = some w.nextMapId := by
  obtain ⟨h1, h2, h3⟩ := removeExistingMap_of_tracked w h
  unfold initMap
  simp [updateMap, h1, h3]

theorem initMap_tracked (E : Engine) (latitude longitude : Double) (label : JsVal)
    (w : World) (h : mapTracked w) :
    mapTracked (initMap E none latitude longitude label w).1 := by
  obtain ⟨h1, h2⟩ := initMap_of_tracked E latitude longitude label w h
  unfold mapTracked
  rw [h1, h2]
  rfl

theorem displayAll_tracked (E : Engine) (calls : List DisplayCall) (w : World)
    (h : mapTracked w) : mapTracked (displayAll E w calls) := by
  induction calls generalizing w with
  | nil => exact h
  | cons c rest ih => exact ih _ (initMap_tracked E c.latitude c.longitude c.label w h)

theorem displayAll_append (E : Engine) (w : World) (calls : List DisplayCall)
    (last : DisplayCall) :
    displayAll E w (calls ++ [last]) =
      (initMap E none last.latitude last.longitude last.label (displayAll E w calls)).1 := by
  simp [displayAll, List.foldl_append]

/-- C8. From the load state, after the display calls `calls` followed by
`last`: the map left by `calls`, if any, is removed before the new one is
created, and exactly one map instance is live, the one the global `map`
refers to, carrying one tile layer, one marker and one circle, both at the
coordinates of `last`. -/
theorem initMap_replace (E : Engine) (w0 : World) (h0 : w0.atLoad)
    (calls : List DisplayCall) (last : DisplayCall) :
    (removeExistingMap (displayAll E w0 calls)).liveMaps = [] ∧
    (displayAll E w0 (calls ++ [last])).liveMaps =
      [⟨(displayAll E w0 calls).nextMapId, "map", (last.latitude, last.longitude), 18,
        ["https://\x7bs\x7d.tile.openstreetmap.org/\x7bz\x7d/\x7bx\x7d/\x7by\x7d.png"],
        [⟨last.latitude, last.longitude, toStr E last.label,
          some (toStr E last.label,
            E.toFixed6 last.latitude ++ ", " ++ E.toFixed6 last.longitude), true⟩],
        [⟨last.latitude, last.longitude, circleRadius⟩]⟩] ∧
    (displayAll E w0 (calls ++ [last])).map = some (displayAll E w0 calls).nextMapId := by
  have ht0 : mapTracked w0 := by
    unfold mapTracked
    rw [h0.2.2.2.2, h0.2.2.1]
    rfl
  have ht := displayAll_tracked E calls w0 ht0
  rw [displayAll_append]
  exact ⟨(removeExistingMap_of_tracked _ ht).1,
    initMap_of_tracked E last.latitude last.longitude last.label _ ht⟩

/-- C8, witness. Two display calls with different coordinates from the page
at load leave one map with one marker and one circle, at the second
coordinates. -/
theorem initMap_replace_witness :
    sampleWorld.atLoad ∧
    (displayAll sampleEngine sampleWorld
      [⟨sampleLatitude, sampleLongitude, .json (.str "39J-438-TJC7")⟩,
       ⟨sampleLongitude, sampleLatitude, .json (.str "4P3-JK8-52C9")⟩]).liveMaps =
      [⟨1, "map", (sampleLongitude, sampleLatitude), 18,
        ["https://\x7bs\x7d.tile.openstreetmap.org/\x7bz\x7d/\x7bx\x7d/\x7by\x7d.png"],
        [⟨sampleLongitude, sampleLatitude, "4P3-JK8-52C9",
          some ("4P3-JK8-52C9", "77.209000, 28.613900"), true⟩],
        [⟨sampleLongitude, sampleLatitude, circleRadius⟩]⟩] :=
  ⟨⟨rfl, rfl, rfl, rfl, rfl⟩,
    (initMap_replace sampleEngine sampleWorld ⟨rfl, rfl, rfl, rfl, rfl⟩
      [⟨sampleLatitude, sampleLongitude, .json (.str "39J-438-TJC7")⟩]
      ⟨sampleLongitude, sampleLatitude, .json (.str "4P3-JK8-52C9")⟩).2.1⟩

end Digipin
